import Mathlib

/-!
Verification of the conversational voice-session core of the
`voice-flow-fixer` repository: the `EnhancedVoiceService` session
controller, the `IntelligentResponseService` response pipeline, the
tiered text-to-speech playback with interruption, and the browser-voice
selection heuristic.  Every definition below is a shallow embedding of
the corresponding TypeScript source (file/line references are given in
the doc comments); asynchronous platform outcomes (network responses,
media-element callbacks) are passed in explicitly as oracle values.
-/

namespace VoiceFlow

/-! ### String layer: JavaScript `String.includes` / `toLowerCase` -/

/-- Boolean test that the character list `s` starts with the character
list `p` (models JavaScript `startsWith` on code points). -/
def chStarts : List Char → List Char → Bool
  | _, [] => true
  | [], _ :: _ => false
  | a :: s, b :: p => a == b && chStarts s p

/-- Boolean test that the character list `p` occurs contiguously inside
`s` (models JavaScript `String.includes`). -/
def chHas : List Char → List Char → Bool
  | [], p => chStarts [] p
  | a :: s', p => chStarts (a :: s') p || chHas s' p

/-- JavaScript `haystack.includes(needle)` on strings. -/
def strIncludes (s pat : String) : Bool :=
  chHas s.data pat.data

/-- JavaScript `trim()`: strip whitespace from both ends, modelled
executably on the character list. -/
def jsTrim (s : String) : String :=
  ⟨((s.data.dropWhile Char.isWhitespace).reverse.dropWhile
      Char.isWhitespace).reverse⟩

/-- JavaScript `toLowerCase`, modelled character-wise (the identity on
the Arabic code points appearing in this code base, ASCII lowering on
the Latin ones — exactly what `Char.toLower` computes). -/
def jsLower (s : String) : String :=
  ⟨s.data.map Char.toLower⟩

theorem chStarts_iff (p s : List Char) :
    chStarts s p = true ↔ ∃ t, s = p ++ t := by
  induction p generalizing s with
  | nil => simp [chStarts]
  | cons b p ih =>
    cases s with
    | nil => simp [chStarts]
    | cons a s' =>
      simp only [chStarts, Bool.and_eq_true, beq_iff_eq, ih, List.cons_append,
        List.cons.injEq]
      constructor
      · rintro ⟨rfl, t, rfl⟩; exact ⟨t, rfl, rfl⟩
      · rintro ⟨t, rfl, rfl⟩; exact ⟨rfl, t, rfl⟩

theorem chHas_iff (p s : List Char) :
    chHas s p = true ↔ ∃ u v, s = u ++ p ++ v := by
  induction s with
  | nil =>
    cases p with
    | nil => simp [chHas, chStarts]
    | cons b p' => simp [chHas, chStarts]
  | cons a s' ih =>
    simp only [chHas, Bool.or_eq_true, chStarts_iff, ih]
    constructor
    · rintro (⟨t, h⟩ | ⟨u, v, rfl⟩)
      · exact ⟨[], t, by simpa using h⟩
      · exact ⟨a :: u, v, rfl⟩
    · rintro ⟨u, v, h⟩
      cases u with
      | nil => exact Or.inl ⟨v, by simpa using h⟩
      | cons a' u' =>
        simp only [List.cons_append, List.cons.injEq] at h
        exact Or.inr ⟨u', v, h.2⟩

/-- Containment of strings is transitive. -/
theorem chHas_trans {s p k : List Char} (h₁ : chHas s p = true)
    (h₂ : chHas p k = true) : chHas s k = true := by
  rw [chHas_iff] at h₁ h₂ ⊢
  obtain ⟨u, v, rfl⟩ := h₁
  obtain ⟨u', v', rfl⟩ := h₂
  exact ⟨u ++ u', v' ++ v, by simp⟩

/-- Containment of character lists is preserved by a character map. -/
theorem chHas_map (f : Char → Char) {s p : List Char}
    (h : chHas s p = true) : chHas (s.map f) (p.map f) = true := by
  rw [chHas_iff] at h ⊢
  obtain ⟨u, v, rfl⟩ := h
  exact ⟨u.map f, v.map f, by simp⟩

theorem strIncludes_trans {s p k : String} (h₁ : strIncludes s p = true)
    (h₂ : strIncludes p k = true) : strIncludes s k = true :=
  chHas_trans h₁ h₂

theorem strIncludes_jsLower {s p : String} (h : strIncludes s p = true) :
    strIncludes (jsLower s) (jsLower p) = true :=
  chHas_map Char.toLower h

/-! ### Core data model (`src/types/voice`, `VoiceState` in part_008) -/

/-- Session language (`currentLanguage : 'en' | 'ar'`). -/
inductive Lang where
  | ar
  | en
deriving DecidableEq

/-- Pipeline stage (`ProcessingStep.step` in `intelligentResponseService`,
part_006 lines 3-6). -/
inductive Stage where
  | analyzing
  | searching
  | processing
  | generating
deriving DecidableEq

/-- The `VoiceState` record owned by `EnhancedVoiceService`
(part_008 lines 39-47).  Every field is a primitive value. -/
structure VoiceState where
  isConnected : Bool
  isRecording : Bool
  isSpeaking : Bool
  isProcessing : Bool
  error : Option String
  currentLanguage : Lang
  processingStep : Option Stage
deriving DecidableEq

/-- The initial session state (part_008 lines 39-47). -/
instance : Inhabited VoiceState :=
  ⟨{ isConnected := false, isRecording := false, isSpeaking := false,
     isProcessing := false, error := none, currentLanguage := Lang.ar,
     processingStep := none }⟩

/-! ### `IntelligentResponseService.shouldUsePerplexity`
(part_006 lines 68-131) -/

/-- Keywords that indicate need for real-time or location-specific
information (part_006 lines 70-97), per language. -/
def realTimeKeywords : Lang → List String
  | Lang.ar =>
    ["صيدليات", "مناوبة", "مناوبه", "مستشفيات", "عيادات", "مراكز صحية",
     "مفتوح", "مغلق", "ساعات العمل", "أوقات الدوام", "طوارئ",
     "الآن", "اليوم", "هذا الأسبوع", "حالياً", "جديد", "أحدث",
     "متوفر", "موجود", "كم سعر", "أسعار", "تكلفة",
     "في مسقط", "في صلالة", "في نزوى", "في صحار", "في السيب",
     "قريب مني", "أقرب", "مكان", "عنوان", "موقع",
     "خدمات", "حجز موعد", "تأمين", "تأمين صحي", "اشتراك"]
  | Lang.en =>
    ["pharmacies", "duty", "on call", "hospitals", "clinics", "health centers",
     "open", "closed", "working hours", "opening times", "emergency",
     "now", "today", "current", "latest", "new", "recent",
     "available", "price", "cost", "rates", "fees",
     "in muscat", "in salalah", "in nizwa", "in sohar", "in seeb",
     "near me", "nearest", "closest", "location", "address",
     "services", "appointment", "insurance", "booking", "subscription"]

/-- Time-sensitive indicator phrases (part_006 lines 99-102). -/
def timeIndicators : Lang → List String
  | Lang.ar => ["الليلة", "هذه الليلة", "بعد منتصف الليل", "صباح اليوم", "مساء اليوم"]
  | Lang.en => ["tonight", "after midnight", "this morning", "this evening", "today"]

/-- Question-word patterns (part_006 lines 120-123). -/
def questionPatterns : Lang → List String
  | Lang.ar => ["وين", "متى", "أي", "كم", "شنو أقرب", "وش", "ايش"]
  | Lang.en => ["where", "when", "which", "what", "how much", "how many"]

/-- The augmentation-trigger classifier
`IntelligentResponseService.shouldUsePerplexity` (part_006 lines 68-131):
a pure keyword/pattern match on the lowered text, no network call. -/
def shouldUsePerplexity (text : String) (language : Lang) : Bool :=
  let textLower := jsLower text
  let hasRealTimeKeywords :=
    (realTimeKeywords language).any fun k => strIncludes textLower (jsLower k)
  let hasTimeIndicators :=
    (timeIndicators language).any fun w => strIncludes textLower (jsLower w)
  let hasQuestionPattern :=
    (questionPatterns language).any fun p => strIncludes textLower (jsLower p)
  hasRealTimeKeywords || hasTimeIndicators ||
    (hasQuestionPattern && (hasRealTimeKeywords ||
      strIncludes textLower "musk" || strIncludes textLower "مسقط"))

/-! ### Pipeline oracles and `IntelligentResponseService.processQuestion`
(part_006 lines 22-66, 133-156, 158-277) -/

/-- Outcome of the `supabase.functions.invoke('perplexity-healthcare-search')`
call inside `getPerplexityContext` (part_006 lines 133-156). -/
inductive SearchOutcome where
  | ok (resp : Option String)
  | invokeError
  | threw
deriving DecidableEq

/-- `IntelligentResponseService.getPerplexityContext` (part_006 lines
133-156): returns `data?.response || ''`; an invoke error or a thrown
exception is caught inside and yields the empty string — this function
never rejects. -/
def getPerplexityContext : SearchOutcome → String
  | SearchOutcome.ok (some r) => r
  | SearchOutcome.ok none => ""
  | SearchOutcome.invokeError => ""
  | SearchOutcome.threw => ""

/-- True when the external search call failed (invoke error or thrown
exception) rather than returning data. -/
def searchFailed : SearchOutcome → Bool
  | SearchOutcome.ok _ => false
  | SearchOutcome.invokeError => true
  | SearchOutcome.threw => true

/-- Outcome of the OpenRouter chat-completion fetch inside
`generateAIResponse` (part_006 lines 255-277). -/
inductive LlmOutcome where
  | httpOk (content : Option String)
  | httpError (status : Nat)
  | threw (msg : String)
deriving DecidableEq

/-- `IntelligentResponseService.generateAIResponse` network tail
(part_006 lines 255-277): a non-ok HTTP status throws
`AI service failed: <status>`, a network exception propagates, and an
ok response yields `data.choices[0]?.message?.content || <fallback>`. -/
def generateAIResponse : LlmOutcome → Except String String
  | LlmOutcome.httpOk (some c) => Except.ok c
  | LlmOutcome.httpOk none =>
      Except.ok "عذراً، لم أتمكن من معالجة طلبك. حاول مرة أخرى."
  | LlmOutcome.httpError status =>
      Except.error ("AI service failed: " ++ toString status)
  | LlmOutcome.threw msg => Except.error msg

/-- Result of one `processQuestion` invocation: the progress steps
reported to `onProgress` in emission order, the augmentation context
passed on to `generateAIResponse`, and the returned or thrown value. -/
structure PipelineRun where
  progress : List Stage
  contextUsed : String
  result : Except String String

/-- `IntelligentResponseService.processQuestion` (part_006 lines 22-66):
reports `analyzing`; if `shouldUsePerplexity` answers true it reports
`searching` and runs the external search, swallowing its failure
(empty context); then reports `processing` and `generating` and calls
`generateAIResponse`, whose failure propagates to the caller. -/
def processQuestion (text : String) (language : Lang)
    (search : SearchOutcome) (llm : LlmOutcome) : PipelineRun :=
  let needs := shouldUsePerplexity text language
  { progress := Stage.analyzing ::
      ((if needs then [Stage.searching] else []) ++
        [Stage.processing, Stage.generating])
  , contextUsed := if needs then getPerplexityContext search else ""
  , result := generateAIResponse llm }

/-! ### Text-to-speech playback (`EnhancedVoiceService`, part_008
lines 363-646) -/

/-- Outcome of one `speakWithElevenLabs` attempt (part_008 lines
386-478): only a playback that reaches `audio.onended` reports success;
a missing/demo key, an HTTP error, a media error, a rejected `play()`,
an interruption before play, or a thrown exception all resolve `false`
(this promise never rejects). -/
inductive ElevenOutcome where
  | noKey
  | httpError (status : Nat)
  | played
  | audioError
  | playRejected
  | interruptedBeforePlay
  | threw
deriving DecidableEq

/-- The boolean `speakWithElevenLabs` resolves with. -/
def speakWithElevenLabs : ElevenOutcome → Bool
  | ElevenOutcome.played => true
  | _ => false

/-- Outcome of the platform speech-synthesis part of
`speakWithBrowserTTS` (part_008 lines 480-646). -/
inductive BrowserOutcome where
  | ended
  | errored (e : String)
  | interruptedBeforeSpeak
deriving DecidableEq

/-- Settlement of the `speakWithBrowserTTS` promise (part_008 lines
617-639): `utterance.onend` resolves, `utterance.onerror` REJECTS with
`Browser TTS failed: <error>`, and an interruption arriving before
`synthesis.speak` resolves. -/
def speakWithBrowserTTS : BrowserOutcome → Except String Unit
  | BrowserOutcome.ended => Except.ok ()
  | BrowserOutcome.errored e => Except.error ("Browser TTS failed: " ++ e)
  | BrowserOutcome.interruptedBeforeSpeak => Except.ok ()

/-- `EnhancedVoiceService.speakTextEnhanced` (part_008 lines 364-384):
sets `isSpeaking`, tries ElevenLabs, falls back to browser TTS; both the
success path and the catch clear `isSpeaking`, but the catch RETHROWS
the browser-TTS rejection to the caller. -/
def speakTextEnhanced (st : VoiceState) (el : ElevenOutcome)
    (br : BrowserOutcome) : VoiceState × Except String Unit :=
  let st1 := { st with isSpeaking := true }
  if speakWithElevenLabs el then
    ({ st1 with isSpeaking := false }, Except.ok ())
  else
    match speakWithBrowserTTS br with
    | Except.ok _ => ({ st1 with isSpeaking := false }, Except.ok ())
    | Except.error e => ({ st1 with isSpeaking := false }, Except.error e)

/-! ### The turn-commit protocol (`EnhancedVoiceService`, part_008
lines 112-146 and 649-712) -/

/-- Observable events of one committed turn, in emission order. -/
inductive Ev where
  | publishUser (text : String)
  | pipelineBegin (text : String)
  | progress (s : Stage)
  | publishAssistant (text : String)
  | speakBegin (text : String)
deriving DecidableEq

def isPublishUser : Ev → Bool
  | Ev.publishUser _ => true
  | _ => false

def isPipelineBegin : Ev → Bool
  | Ev.pipelineBegin _ => true
  | _ => false

def isPublishAssistant : Ev → Bool
  | Ev.publishAssistant _ => true
  | _ => false

def isSpeakBegin : Ev → Bool
  | Ev.speakBegin _ => true
  | _ => false

/-- The stage-progress events of a trace, in order. -/
def stagesOf (tr : List Ev) : List Stage :=
  tr.filterMap fun e =>
    match e with
    | Ev.progress s => some s
    | _ => none

/-- Every `p`-event of the trace occurs strictly before every `q`-event,
and both kinds occur. -/
def EventsSeparated (p q : Ev → Bool) (tr : List Ev) : Prop :=
  ∃ l1 l2, tr = l1 ++ l2 ∧
    (∃ e ∈ l1, p e = true) ∧ (∃ e ∈ l2, q e = true) ∧
    (∀ e ∈ l1, q e = false) ∧ (∀ e ∈ l2, p e = false)

/-- Environment (oracle values) for one committed turn: the outcomes of
the external search, the LLM call, and the two playback tiers.
`nurseService.logInteraction` (part_005 lines 127-135) logs its own
database error and always resolves, so it needs no oracle. -/
structure TurnEnv where
  search : SearchOutcome
  llm : LlmOutcome
  eleven : ElevenOutcome
  browser : BrowserOutcome
deriving DecidableEq

/-- Result of running one committed turn: the emitted events and the
final session state. -/
structure TurnResult where
  events : List Ev
  final : VoiceState

/-- The progress callback passed by `processUserMessage` (part_008
lines 660-664): each reported step overwrites `processingStep`. -/
def applyProgress (st : VoiceState) (stages : List Stage) : VoiceState :=
  stages.foldl (fun s stg => { s with processingStep := some stg }) st

/-- The error message set by the `processUserMessage` catch handler
(part_008 line 707). -/
def processFailMsg : String := "Failed to process your message. Please try again."

/-- `EnhancedVoiceService.processUserMessage` (part_008 lines 649-712):
sets `isProcessing`/`analyzing`, invokes the pipeline, forwards each
progress step into state; on pipeline success it logs the interaction,
publishes the assistant turn, then awaits playback, and finally clears
`isProcessing`; any rejection (pipeline or playback) is caught, setting
`error` and clearing `isProcessing` — with no assistant turn published
in the pipeline-failure case. -/
def processUserMessage (st : VoiceState) (text : String)
    (env : TurnEnv) : TurnResult :=
  let st1 := { st with isProcessing := true,
                       processingStep := some Stage.analyzing }
  let run := processQuestion text st1.currentLanguage env.search env.llm
  let st2 := applyProgress st1 run.progress
  match run.result with
  | Except.ok response =>
      let sp := speakTextEnhanced st2 env.eleven env.browser
      { events := Ev.pipelineBegin text ::
          (run.progress.map Ev.progress ++
            [Ev.publishAssistant response, Ev.speakBegin response])
      , final :=
          match sp.2 with
          | Except.ok _ =>
              { sp.1 with isProcessing := false, processingStep := none }
          | Except.error _ =>
              { sp.1 with error := some processFailMsg,
                          isProcessing := false, processingStep := none } }
  | Except.error _ =>
      { events := Ev.pipelineBegin text :: run.progress.map Ev.progress
      , final := { st2 with error := some processFailMsg,
                            isProcessing := false, processingStep := none } }

/-- The `recognition.onresult` handler (part_008 lines 112-146): on a
final result with non-empty trimmed transcript it publishes the user
turn to every message listener and only then calls
`processUserMessage`; otherwise nothing happens. -/
def recognitionOnResult (st : VoiceState) (transcript : String)
    (isFinal : Bool) (env : TurnEnv) : TurnResult :=
  let t := (jsTrim transcript)
  if isFinal && !(t == "") then
    let inner := processUserMessage st t env
    { events := Ev.publishUser t :: inner.events, final := inner.final }
  else
    { events := [], final := st }

/-! ### Handle-level playback state and `interruptAudio`
(part_008 lines 29-49 and 331-361) -/

/-- The mutable face of an `HTMLAudioElement` the service touches:
its paused flag and playback position. -/
structure AudioHandle where
  paused : Bool
  currentTime : Nat
deriving DecidableEq

/-- Events an `HTMLAudioElement` can fire that the service listens to,
plus the pause event. -/
inductive MediaEv where
  | pauseEv
  | endedEv
  | errorEv
deriving DecidableEq

/-- HTML media-element contract, modelled: calling `pause()` on an
element fires only the `pause` event; `ended` fires only when playback
reaches the end of the media, and `error` only on a media failure. -/
def pauseFires : List MediaEv := [MediaEv.pauseEv]

/-- The pending `speakWithElevenLabs` promise (part_008 lines 449-472)
settles only through `audio.onended` or `audio.onerror`. -/
def settlesSpeakPromise : MediaEv → Bool
  | MediaEv.endedEv => true
  | MediaEv.errorEv => true
  | MediaEv.pauseEv => false

/-- The service fields relevant to playback and capture handles
(part_008 lines 29-49): session state, the tracked ElevenLabs audio
element, the platform `synthesis.speaking` flag, and the tracked
utterance (identified by a number). -/
structure ServiceH where
  vstate : VoiceState
  currentAudio : Option AudioHandle
  synthSpeaking : Bool
  currentUtterance : Option Nat
deriving DecidableEq

/-- Everything `interruptAudio` does: the resulting service state, the
final content of the released tier-1 element (if one was playing), the
media events the interruption fires on that element, and whether tier-2
synthesis was cancelled. -/
structure InterruptOutcome where
  svc : ServiceH
  stoppedAudio : Option AudioHandle
  firedOnAudio : List MediaEv
  synthesisCancelled : Bool
deriving DecidableEq

/-- `EnhancedVoiceService.interruptAudio` (part_008 lines 332-361):
pauses and rewinds the tracked ElevenLabs audio and drops the handle;
cancels browser synthesis if `synthesis.speaking` and drops the
utterance; clears `isSpeaking` when anything was playing. -/
def interruptAudio (s : ServiceH) : InterruptOutcome :=
  let stopped := s.currentAudio.map fun a =>
    { a with paused := true, currentTime := 0 }
  let fired := match s.currentAudio with
    | some _ => pauseFires
    | none => []
  let wasInterrupted := s.currentAudio.isSome || s.synthSpeaking
  let newUtterance := if s.synthSpeaking then none else s.currentUtterance
  let newV := if s.vstate.isSpeaking || wasInterrupted then
      { s.vstate with isSpeaking := false }
    else s.vstate
  { svc := { vstate := newV, currentAudio := none,
             synthSpeaking := false, currentUtterance := newUtterance }
  , stoppedAudio := stopped
  , firedOnAudio := fired
  , synthesisCancelled := s.synthSpeaking }

/-! ### `startRecording` (part_008 lines 243-268) -/

/-- Observable actions of one `startRecording()` call. -/
inductive CtlEv where
  | warnAlreadyRecording
  | ttsInterrupt
  | captureStart
  | startFailed
deriving DecidableEq

/-- The error message set when `startRecording` throws
(part_008 line 263). -/
def startFailMsg : String := "Failed to start recording. Please try again."

/-- `EnhancedVoiceService.startRecording` (part_008 lines 243-268):
throws if speech recognition is uninitialized (caught: sets `error`,
clears `isRecording`); warns and returns if already recording;
otherwise calls `interruptAudio()` and only then `recognition.start()`.
It never sets `isRecording` itself on the success path. -/
def startRecording (s : ServiceH) (hasRecognition : Bool) :
    ServiceH × List CtlEv :=
  if !hasRecognition then
    ({ s with vstate := { s.vstate with error := some startFailMsg,
                                        isRecording := false } },
     [CtlEv.startFailed])
  else if s.vstate.isRecording then
    (s, [CtlEv.warnAlreadyRecording])
  else
    ((interruptAudio s).svc, [CtlEv.ttsInterrupt, CtlEv.captureStart])

/-! ### The recording flag as a trace function
(part_008 lines 102-110, 148-173, 243-275) -/

/-- Alphabet of the capture lifecycle: the two controller calls and the
three adapter acknowledgments. -/
inductive RecEvent where
  | callStart
  | callStop
  | ackStart
  | ackEnd
  | ackError
deriving DecidableEq

/-- How one event updates `isRecording`: `recognition.onstart` sets it
(part_008 line 104), `recognition.onend` clears it (line 109),
`recognition.onerror` clears it (lines 169-172); the controller calls
`startRecording`/`stopRecording` leave it untouched (lines 243-275). -/
def recStep : Bool → RecEvent → Bool
  | _, RecEvent.ackStart => true
  | _, RecEvent.ackEnd => false
  | _, RecEvent.ackError => false
  | b, RecEvent.callStart => b
  | b, RecEvent.callStop => b

/-- `isRecording` after a capture-lifecycle trace, starting from the
initial `false` (part_008 line 41). -/
def recordingAfter (tr : List RecEvent) : Bool :=
  tr.foldl recStep false

/-- The predicate the claim states: the adapter has acknowledged start
and not yet acknowledged end. -/
def startAckedNotEnded (tr : List RecEvent) : Bool :=
  tr.foldl (fun b e =>
    match e with
    | RecEvent.ackStart => true
    | RecEvent.ackEnd => false
    | _ => b) false

/-! ### Browser voice selection (`speakWithBrowserTTS`,
part_008 lines 488-609) -/

/-- One entry of `synthesis.getVoices()`. -/
structure BrowserVoice where
  name : String
  lang : String
deriving DecidableEq

/-- Female voice-name patterns (part_008 lines 496-503). -/
def femaleVoicePatterns : List String :=
  ["female", "zira", "sara", "lily", "cortana", "hazel", "susan", "emma",
   "ava", "aria", "eva", "amy", "kate", "anna", "mary", "jenny", "sophia",
   "olivia", "isabella",
   "hoda", "amira", "aisha", "fatima", "khadija", "maryam", "zahra",
   "layla", "nour", "salma", "rania", "dina", "maya", "lina", "yasmin",
   "rana", "sara"]

/-- Male voice-name patterns to exclude (part_008 lines 506-513). -/
def maleVoicePatterns : List String :=
  ["male", "david", "mark", "paul", "richard", "james", "john", "michael",
   "william", "daniel", "matthew", "christopher", "andrew", "joshua",
   "ryan", "brandon",
   "naayf", "ahmed", "mohammed", "omar", "ali", "hassan", "khalid",
   "youssef", "amr", "tamer", "kareem", "fadi", "rami", "waleed", "sami",
   "tariq", "nasser", "abdulla"]

/-- `voice.name.toLowerCase().includes(pattern)` over a pattern list. -/
def voiceMatchesAny (v : BrowserVoice) (pats : List String) : Bool :=
  pats.any fun p => strIncludes (jsLower v.name) p

def isFemaleVoice (v : BrowserVoice) : Bool :=
  voiceMatchesAny v femaleVoicePatterns

def isMaleVoice (v : BrowserVoice) : Bool :=
  voiceMatchesAny v maleVoicePatterns

/-- `voice.lang.includes(targetLang)` (part_008 line 524). -/
def voiceLangMatches (v : BrowserVoice) (target : String) : Bool :=
  strIncludes v.lang target

/-- The staged `voices.find(...)` selection of `speakWithBrowserTTS`
(part_008 lines 522-573): first a female non-male voice of the target
language, then any non-male voice of the target language, then (Arabic
only) an English female non-male voice; otherwise no voice is chosen. -/
def selectBrowserVoice (voices : List BrowserVoice) (targetLang : String) :
    Option BrowserVoice :=
  match voices.find? fun v =>
      voiceLangMatches v targetLang && isFemaleVoice v && !isMaleVoice v with
  | some v => some v
  | none =>
    match voices.find? fun v =>
        voiceLangMatches v targetLang && !isMaleVoice v with
    | some v => some v
    | none =>
      if targetLang == "ar" then
        voices.find? fun v =>
          strIncludes v.lang "en" && isFemaleVoice v && !isMaleVoice v
      else none

/-- The voice actually assigned to the utterance after the male-voice
override (part_008 lines 575-609): a selected male-pattern voice is
replaced by the platform default (`none`); no selection also means the
platform default. -/
def finalUtteranceVoice (voices : List BrowserVoice) (targetLang : String) :
    Option BrowserVoice :=
  match selectBrowserVoice voices targetLang with
  | some v => if isMaleVoice v then none else some v
  | none => none

/-! ### Defensive state snapshots (`getState`/`updateState`,
part_008 lines 182-204) -/

/-- A heap of `VoiceState` records; references are indices.  Models the
JavaScript object graph: `this.currentState` is one cell, and each
`{ ...this.currentState }` spread allocates a fresh cell (every
`VoiceState` field is a primitive, so the shallow copy is a full
copy). -/
structure Store where
  cells : List VoiceState
deriving DecidableEq

def readRef (h : Store) (r : Nat) : Option VoiceState :=
  h.cells.get? r

/-- In-place mutation of the record behind reference `r` (what a caller
could do to a returned state object). -/
def writeRef (h : Store) (r : Nat) (v : VoiceState) : Store :=
  ⟨h.cells.set r v⟩

/-- Allocation of a fresh record. -/
def allocRef (h : Store) (v : VoiceState) : Store × Nat :=
  (⟨h.cells ++ [v]⟩, h.cells.length)

/-- `EnhancedVoiceService.getState` (part_008 lines 188-190):
`return { ...this.currentState }` — allocates a fresh record holding a
copy of the current state and hands back that reference. -/
def getState (h : Store) (svcRef : Nat) : Store × Nat :=
  allocRef h ((readRef h svcRef).getD default)

/-- The `Partial<VoiceState>` argument of `updateState`. -/
structure StateUpdates where
  isConnected : Option Bool := none
  isRecording : Option Bool := none
  isSpeaking : Option Bool := none
  isProcessing : Option Bool := none
  error : Option (Option String) := none
  currentLanguage : Option Lang := none
  processingStep : Option (Option Stage) := none

/-- The record spread `{ ...this.currentState, ...updates }`. -/
def applyUpdates (v : VoiceState) (u : StateUpdates) : VoiceState :=
  { isConnected := u.isConnected.getD v.isConnected
  , isRecording := u.isRecording.getD v.isRecording
  , isSpeaking := u.isSpeaking.getD v.isSpeaking
  , isProcessing := u.isProcessing.getD v.isProcessing
  , error := u.error.getD v.error
  , currentLanguage := u.currentLanguage.getD v.currentLanguage
  , processingStep := u.processingStep.getD v.processingStep }

/-- `EnhancedVoiceService.updateState` (part_008 lines 182-186):
replaces `this.currentState` with the merged record and calls every
registered state listener with that full new state. -/
def updateState (h : Store) (svcRef : Nat) (u : StateUpdates)
    (listeners : List Nat) : Store × List (Nat × VoiceState) :=
  let newV := applyUpdates ((readRef h svcRef).getD default) u
  (writeRef h svcRef newV, listeners.map fun l => (l, newV))

/-! ## Helper lemmas -/

/-- Helper: a matched real-time keyword makes the classifier answer
true, whatever the rest of the text contains. -/
theorem shouldUsePerplexity_of_keyword (t k : String) (l : Lang)
    (hmem : k ∈ realTimeKeywords l)
    (h : strIncludes (jsLower t) (jsLower k) = true) :
    shouldUsePerplexity t l = true := by
  have hRT : ((realTimeKeywords l).any
      fun kw => strIncludes (jsLower t) (jsLower kw)) = true :=
    List.any_eq_true.mpr ⟨k, hmem, h⟩
  simp only [shouldUsePerplexity, hRT, Bool.true_or]

/-- Helper: a list containing an element satisfying the predicate has a
successful `find?`. -/
theorem find?_some_of_mem {α : Type} (p : α → Bool) {l : List α} {x : α}
    (hx : x ∈ l) (hpx : p x = true) : ∃ y, l.find? p = some y := by
  induction l with
  | nil => cases hx
  | cons a l ih =>
    cases hpa : p a with
    | true => exact ⟨a, by simp [List.find?_cons_of_pos _ hpa]⟩
    | false =>
      rcases List.mem_cons.mp hx with rfl | hx'
      · rw [hpa] at hpx; cases hpx
      · obtain ⟨y, hy⟩ := ih hx'
        exact ⟨y, by simp [List.find?_cons_of_neg, hpa, hy]⟩

/-- Helper: appending an event that is no acknowledgment at all to a
capture trace neither opens nor closes a start-acknowledgment
decomposition. -/
theorem recTrace_append_neutral (tr : List RecEvent) (c : RecEvent)
    (hc1 : c ≠ RecEvent.ackStart) (hc2 : c ≠ RecEvent.ackEnd)
    (hc3 : c ≠ RecEvent.ackError) :
    (∃ l1 l2, tr ++ [c] = l1 ++ RecEvent.ackStart :: l2 ∧
        RecEvent.ackEnd ∉ l2 ∧ RecEvent.ackError ∉ l2) ↔
      (∃ l1 l2, tr = l1 ++ RecEvent.ackStart :: l2 ∧
        RecEvent.ackEnd ∉ l2 ∧ RecEvent.ackError ∉ l2) := by
  constructor
  · rintro ⟨l1, l2, heq, hend, herr⟩
    rcases List.eq_nil_or_concat l2 with rfl | ⟨l2', x, rfl⟩
    · have h := (List.append_inj' heq rfl).2
      simp only [List.cons.injEq, and_true] at h
      exact absurd h hc1
    · simp only [List.concat_eq_append] at heq hend herr
      rw [show l1 ++ RecEvent.ackStart :: (l2' ++ [x]) =
          (l1 ++ RecEvent.ackStart :: l2') ++ [x] by simp] at heq
      obtain ⟨h1, h2⟩ := List.append_inj' heq rfl
      simp only [List.cons.injEq, and_true] at h2
      subst h2
      exact ⟨l1, l2', h1,
        fun hm => hend (List.mem_append.mpr (Or.inl hm)),
        fun hm => herr (List.mem_append.mpr (Or.inl hm))⟩
  · rintro ⟨l1, l2, rfl, hend, herr⟩
    refine ⟨l1, l2 ++ [c], by simp, ?_, ?_⟩
    · intro hm
      rcases List.mem_append.mp hm with hm' | hm'
      · exact hend hm'
      · exact hc2 (List.mem_singleton.mp hm').symm
    · intro hm
      rcases List.mem_append.mp hm with hm' | hm'
      · exact herr hm'
      · exact hc3 (List.mem_singleton.mp hm').symm

/-- Helper: a trace ending in an end acknowledgment or an error report
admits no open start-acknowledgment decomposition. -/
theorem recTrace_append_closing (tr : List RecEvent) (c : RecEvent)
    (hc : c = RecEvent.ackEnd ∨ c = RecEvent.ackError) :
    ¬ ∃ l1 l2, tr ++ [c] = l1 ++ RecEvent.ackStart :: l2 ∧
        RecEvent.ackEnd ∉ l2 ∧ RecEvent.ackError ∉ l2 := by
  rintro ⟨l1, l2, heq, hend, herr⟩
  rcases List.eq_nil_or_concat l2 with rfl | ⟨l2', x, rfl⟩
  · have h := (List.append_inj' heq rfl).2
    simp only [List.cons.injEq, and_true] at h
    rcases hc with rfl | rfl <;> exact RecEvent.noConfusion h
  · simp only [List.concat_eq_append] at heq hend herr
    rw [show l1 ++ RecEvent.ackStart :: (l2' ++ [x]) =
        (l1 ++ RecEvent.ackStart :: l2') ++ [x] by simp] at heq
    have h2 := (List.append_inj' heq rfl).2
    simp only [List.cons.injEq, and_true] at h2
    subst h2
    rcases hc with rfl | rfl
    · exact hend (List.mem_append.mpr (Or.inr (List.mem_singleton.mpr rfl)))
    · exact herr (List.mem_append.mpr (Or.inr (List.mem_singleton.mpr rfl)))

/-! ## Claims -/

/-- C7: the augmentation-trigger classifier is a pure local decision
(it is a Lean function of the text and language alone): every Arabic
text containing "نزوى" and "صيدلية مفتوحة الآن" makes it answer true,
and the plain Arabic text "مرحبا كيف حالك" makes it answer false. -/
theorem c7_augmentation_trigger_classifier :
    (∀ text : String, strIncludes text "نزوى" = true →
        strIncludes text "صيدلية مفتوحة الآن" = true →
        shouldUsePerplexity text Lang.ar = true) ∧
      shouldUsePerplexity "مرحبا كيف حالك" Lang.ar = false := by
  constructor
  · intro text _ h2
    have h3 : strIncludes "صيدلية مفتوحة الآن" "الآن" = true := by decide
    exact shouldUsePerplexity_of_keyword text "الآن" Lang.ar (by decide)
      (strIncludes_jsLower (strIncludes_trans h2 h3))
  · decide

/-- Witness for C7 at the concrete utterance
"صيدلية مفتوحة الآن في نزوى". -/
theorem c7_witness :
    strIncludes "صيدلية مفتوحة الآن في نزوى" "نزوى" = true ∧
      strIncludes "صيدلية مفتوحة الآن في نزوى" "صيدلية مفتوحة الآن" = true ∧
      shouldUsePerplexity "صيدلية مفتوحة الآن في نزوى" Lang.ar = true :=
  ⟨by decide, by decide,
    c7_augmentation_trigger_classifier.1 "صيدلية مفتوحة الآن في نزوى"
      (by decide) (by decide)⟩

/-- C6: tier-2 voice selection never assigns a male-pattern voice when
a non-male-pattern voice of the target language exists (it then assigns
a non-male voice); on the list David/Zira with target language "en" it
selects Zira; and when only male-pattern voices exist it falls back to
the platform default (no voice assigned). -/
theorem c6_voice_selection :
    (∀ (voices : List BrowserVoice) (tl : String),
        (∃ v ∈ voices, voiceLangMatches v tl = true ∧ isMaleVoice v = false) →
        ∃ w, finalUtteranceVoice voices tl = some w ∧ isMaleVoice w = false) ∧
      finalUtteranceVoice [⟨"David", "en-US"⟩, ⟨"Zira", "en-US"⟩] "en" =
        some ⟨"Zira", "en-US"⟩ ∧
      (∀ (voices : List BrowserVoice) (tl : String),
        (∀ v ∈ voices, isMaleVoice v = true) →
        finalUtteranceVoice voices tl = none) := by
  refine ⟨?_, by decide, ?_⟩
  · intro voices tl ⟨v, hv, hlang, hnm⟩
    unfold finalUtteranceVoice selectBrowserVoice
    cases h1 : voices.find? fun v =>
        voiceLangMatches v tl && isFemaleVoice v && !isMaleVoice v with
    | some w =>
      have hp := List.find?_some h1
      simp only [Bool.and_eq_true, Bool.not_eq_true'] at hp
      simp [hp.2]
    | none =>
      have hex : ∃ w, (voices.find? fun v =>
          voiceLangMatches v tl && !isMaleVoice v) = some w :=
        find?_some_of_mem _ hv (by simp [hlang, hnm])
      obtain ⟨w, hw⟩ := hex
      have hp := List.find?_some hw
      simp only [Bool.and_eq_true, Bool.not_eq_true'] at hp
      simp [hw, hp.2]
  · intro voices tl hall
    unfold finalUtteranceVoice selectBrowserVoice
    have h1 : (voices.find? fun v =>
        voiceLangMatches v tl && isFemaleVoice v && !isMaleVoice v) = none := by
      rw [List.find?_eq_none]
      intro v hv
      simp [hall v hv]
    have h2 : (voices.find? fun v =>
        voiceLangMatches v tl && !isMaleVoice v) = none := by
      rw [List.find?_eq_none]
      intro v hv
      simp [hall v hv]
    have h3 : (voices.find? fun v =>
        strIncludes v.lang "en" && isFemaleVoice v && !isMaleVoice v) = none := by
      rw [List.find?_eq_none]
      intro v hv
      simp [hall v hv]
    rw [h1, h2, h3]
    cases tl == "ar" <;> simp

/-- Witness for C6: the general parts applied to the concrete David/Zira
list and to an all-male list. -/
theorem c6_witness :
    (∃ w, finalUtteranceVoice [⟨"David", "en-US"⟩, ⟨"Zira", "en-US"⟩] "en" =
        some w ∧ isMaleVoice w = false) ∧
      finalUtteranceVoice [⟨"David", "en-US"⟩] "en" = none :=
  ⟨c6_voice_selection.1 [⟨"David", "en-US"⟩, ⟨"Zira", "en-US"⟩] "en"
      ⟨⟨"Zira", "en-US"⟩, by decide, by decide, by decide⟩,
    c6_voice_selection.2.2 [⟨"David", "en-US"⟩] "en" (by decide)⟩

/-- C2: calling `startRecording()` with speech recognition initialized
is a no-op with a warning when already recording; otherwise, when the
assistant is speaking, the TTS interrupt is performed strictly before
the capture adapter's start call (the action list is exactly
interrupt-then-start) and playback is stopped. -/
theorem c2_start_recording_order (s : ServiceH) :
    (s.vstate.isRecording = true →
      startRecording s true = (s, [CtlEv.warnAlreadyRecording])) ∧
    (s.vstate.isRecording = false → s.vstate.isSpeaking = true →
      (startRecording s true).2 = [CtlEv.ttsInterrupt, CtlEv.captureStart] ∧
      (startRecording s true).1.vstate.isSpeaking = false) := by
  constructor
  · intro h
    simp [startRecording, h]
  · intro h hs
    simp [startRecording, h, interruptAudio, hs]

/-- Witness for C2: the already-recording no-op and the
speaking-interruption ordering at concrete service states. -/
theorem c2_witness :
    (startRecording
        ⟨{ (default : VoiceState) with isRecording := true }, none, false, none⟩
        true =
      (⟨{ (default : VoiceState) with isRecording := true }, none, false, none⟩,
        [CtlEv.warnAlreadyRecording])) ∧
      ((startRecording
          ⟨{ (default : VoiceState) with isSpeaking := true },
            some ⟨false, 7⟩, true, some 0⟩ true).2 =
        [CtlEv.ttsInterrupt, CtlEv.captureStart] ∧
      (startRecording
          ⟨{ (default : VoiceState) with isSpeaking := true },
            some ⟨false, 7⟩, true, some 0⟩ true).1.vstate.isSpeaking = false) :=
  ⟨(c2_start_recording_order _).1 rfl, (c2_start_recording_order _).2 rfl rfl⟩

/-- Counterexample to C5 as stated: with a tier-1 (ElevenLabs) playback
pending, `interruptAudio` pauses and releases the element, but fires no
media event that settles the pending `speak()` promise — the promise
hangs instead of resolving promptly. -/
theorem c5_counterexample :
    ((⟨{ (default : VoiceState) with isSpeaking := true },
        some ⟨false, 7⟩, false, none⟩ : ServiceH).currentAudio.isSome = true) ∧
      ((interruptAudio
          ⟨{ (default : VoiceState) with isSpeaking := true },
            some ⟨false, 7⟩, false, none⟩).firedOnAudio.any
        settlesSpeakPromise) = false := by
  decide

/-- C5 (amended): `interrupt()` stops tier-1 audio when playing (pause,
reset position, release handle) and cancels tier-2 synthesis when
speaking, clearing the speaking flag — but it does not settle a pending
tier-1 `speak()` promise: pausing fires neither `ended` nor `error`, so
that promise hangs. -/
theorem c5_interrupt_effects (s : ServiceH) :
    ((interruptAudio s).svc.currentAudio = none) ∧
    (∀ a, s.currentAudio = some a →
      (interruptAudio s).stoppedAudio =
        some { a with paused := true, currentTime := 0 } ∧
      ((interruptAudio s).firedOnAudio.any settlesSpeakPromise) = false) ∧
    (s.synthSpeaking = true →
      (interruptAudio s).synthesisCancelled = true ∧
      (interruptAudio s).svc.currentUtterance = none) ∧
    ((interruptAudio s).svc.synthSpeaking = false) ∧
    (s.vstate.isSpeaking = true →
      (interruptAudio s).svc.vstate.isSpeaking = false) := by
  refine ⟨?_, ?_, ?_, ?_, ?_⟩
  · simp [interruptAudio]
  · intro a ha
    simp [interruptAudio, ha, pauseFires, settlesSpeakPromise]
  · intro h
    simp [interruptAudio, h]
  · simp [interruptAudio]
  · intro h
    simp [interruptAudio, h]

/-- Witness for C5 at a service state with both tiers active. -/
theorem c5_witness :
    ((interruptAudio
        ⟨{ (default : VoiceState) with isSpeaking := true },
          some ⟨false, 9⟩, true, some 3⟩).stoppedAudio =
      some ⟨true, 0⟩ ∧
    ((interruptAudio
        ⟨{ (default : VoiceState) with isSpeaking := true },
          some ⟨false, 9⟩, true, some 3⟩).firedOnAudio.any
      settlesSpeakPromise) = false) ∧
    ((interruptAudio
        ⟨{ (default : VoiceState) with isSpeaking := true },
          some ⟨false, 9⟩, true, some 3⟩).synthesisCancelled = true ∧
    (interruptAudio
        ⟨{ (default : VoiceState) with isSpeaking := true },
          some ⟨false, 9⟩, true, some 3⟩).svc.currentUtterance = none) ∧
    (interruptAudio
        ⟨{ (default : VoiceState) with isSpeaking := true },
          some ⟨false, 9⟩, true, some 3⟩).svc.vstate.isSpeaking = false :=
  ⟨(c5_interrupt_effects _).2.1 ⟨false, 9⟩ rfl,
    (c5_interrupt_effects _).2.2.1 rfl,
    (c5_interrupt_effects _).2.2.2.2 rfl⟩

/-- Counterexample to C9 as stated: after the adapter acknowledges
start and then reports an error — with no end acknowledgment yet — the
recording flag is already false, so "recording iff the adapter has
acknowledged start and not yet acknowledged end" fails on this trace. -/
theorem c9_counterexample :
    recordingAfter [RecEvent.ackStart, RecEvent.ackError] = false ∧
      startAckedNotEnded [RecEvent.ackStart, RecEvent.ackError] = true := by
  decide

/-- C9 (amended): the recording flag is true exactly when the capture
adapter has acknowledged start and has not since acknowledged end or
reported an error; the flag becomes true only through the adapter's
start acknowledgment, and the controller's own start/stop calls never
change it. -/
theorem c9_recording_flag (tr : List RecEvent) :
    (recordingAfter tr = true ↔
      ∃ l1 l2, tr = l1 ++ RecEvent.ackStart :: l2 ∧
        RecEvent.ackEnd ∉ l2 ∧ RecEvent.ackError ∉ l2) ∧
      (∀ (b : Bool) (e : RecEvent), recStep b e = true →
        b = true ∨ e = RecEvent.ackStart) ∧
      (∀ b : Bool, recStep b RecEvent.callStart = b ∧
        recStep b RecEvent.callStop = b) := by
  refine ⟨?_, ?_, ?_⟩
  · induction tr using List.reverseRecOn with
    | nil => simp [recordingAfter]
    | append_singleton tr e ih =>
      have hstep : recordingAfter (tr ++ [e]) =
          recStep (recordingAfter tr) e := by
        simp [recordingAfter, List.foldl_append]
      cases e with
      | ackStart =>
        rw [hstep]
        simp only [recStep, true_iff]
        exact ⟨tr, [], rfl, by simp, by simp⟩
      | ackEnd =>
        rw [hstep]
        simp only [recStep, Bool.false_eq_true, false_iff]
        exact recTrace_append_closing tr _ (Or.inl rfl)
      | ackError =>
        rw [hstep]
        simp only [recStep, Bool.false_eq_true, false_iff]
        exact recTrace_append_closing tr _ (Or.inr rfl)
      | callStart =>
        rw [hstep]
        simp only [recStep]
        rw [ih]
        exact (recTrace_append_neutral tr _ (by simp) (by simp) (by simp)).symm
      | callStop =>
        rw [hstep]
        simp only [recStep]
        rw [ih]
        exact (recTrace_append_neutral tr _ (by simp) (by simp) (by simp)).symm
  · intro b e h
    cases e <;> simp_all [recStep]
  · intro b
    exact ⟨rfl, rfl⟩

/-- Witness for C9 at concrete traces: an open start acknowledgment
makes the flag true, and a controller call with the flag up leaves it
untouched. -/
theorem c9_witness :
    recordingAfter [RecEvent.callStart, RecEvent.ackStart] = true ∧
      (true = true ∨ RecEvent.callStart = RecEvent.ackStart) :=
  ⟨(c9_recording_flag [RecEvent.callStart, RecEvent.ackStart]).1.mpr
      ⟨[RecEvent.callStart], [], rfl, by simp, by simp⟩,
    (c9_recording_flag []).2.1 true RecEvent.callStart rfl⟩

/-- C3: when the generating stage rejects, no assistant turn event is
published, `lastError` afterwards holds the non-empty failure message,
and `processing` is cleared back to false. -/
theorem c3_generation_failure (st : VoiceState) (text : String)
    (env : TurnEnv) (e : String)
    (herr : generateAIResponse env.llm = Except.error e) :
    (∀ ev ∈ (processUserMessage st text env).events,
        isPublishAssistant ev = false) ∧
      (processUserMessage st text env).final.error = some processFailMsg ∧
      processFailMsg ≠ "" ∧
      (processUserMessage st text env).final.isProcessing = false := by
  refine ⟨?_, ?_, by decide, ?_⟩
  · intro ev hev
    simp only [processUserMessage, processQuestion, herr, List.mem_cons,
      List.mem_map] at hev
    rcases hev with rfl | ⟨s, _, rfl⟩ <;> rfl
  · simp [processUserMessage, processQuestion, herr]
  · simp [processUserMessage, processQuestion, herr]

/-- Witness for C3 at a concrete failing LLM call (HTTP 500). -/
theorem c3_witness :
    (∀ ev ∈ (processUserMessage default "hello"
        ⟨SearchOutcome.threw, LlmOutcome.httpError 500,
          ElevenOutcome.played, BrowserOutcome.ended⟩).events,
      isPublishAssistant ev = false) ∧
      (processUserMessage default "hello"
        ⟨SearchOutcome.threw, LlmOutcome.httpError 500,
          ElevenOutcome.played, BrowserOutcome.ended⟩).final.error =
        some processFailMsg ∧
      processFailMsg ≠ "" ∧
      (processUserMessage default "hello"
        ⟨SearchOutcome.threw, LlmOutcome.httpError 500,
          ElevenOutcome.played, BrowserOutcome.ended⟩).final.isProcessing =
        false :=
  c3_generation_failure default "hello"
    ⟨SearchOutcome.threw, LlmOutcome.httpError 500,
      ElevenOutcome.played, BrowserOutcome.ended⟩
    "AI service failed: 500" rfl

/-- C8: when the searching stage runs and the external search call
fails, the failure is swallowed — the pipeline continues with an empty
augmentation context, still succeeds with the generated reply, and the
assistant turn is still published to message subscribers. -/
theorem c8_search_failure_swallowed (st : VoiceState) (text : String)
    (env : TurnEnv) (r : String)
    (hneeds : shouldUsePerplexity text st.currentLanguage = true)
    (hfail : searchFailed env.search = true)
    (hok : generateAIResponse env.llm = Except.ok r) :
    (processQuestion text st.currentLanguage env.search env.llm).contextUsed
        = "" ∧
      (processQuestion text st.currentLanguage env.search env.llm).result =
        Except.ok r ∧
      Stage.searching ∈
        (processQuestion text st.currentLanguage env.search env.llm).progress ∧
      Ev.publishAssistant r ∈ (processUserMessage st text env).events := by
  have hctx : getPerplexityContext env.search = "" := by
    cases hs : env.search with
    | ok resp => rw [hs] at hfail; simp [searchFailed] at hfail
    | invokeError => rfl
    | threw => rfl
  refine ⟨?_, ?_, ?_, ?_⟩
  · simp [processQuestion, hneeds, hctx]
  · simpa [processQuestion] using hok
  · simp [processQuestion, hneeds]
  · simp [processUserMessage, processQuestion, hok]

/-- Witness for C8: the concrete Arabic pharmacy query with a failing
search invocation and a successful generation. -/
theorem c8_witness :
    shouldUsePerplexity "وين أقرب صيدلية مفتوحة الآن"
        (default : VoiceState).currentLanguage = true ∧
      ((processQuestion "وين أقرب صيدلية مفتوحة الآن"
          (default : VoiceState).currentLanguage SearchOutcome.invokeError
          (LlmOutcome.httpOk (some "الرد"))).contextUsed = "" ∧
        (processQuestion "وين أقرب صيدلية مفتوحة الآن"
          (default : VoiceState).currentLanguage SearchOutcome.invokeError
          (LlmOutcome.httpOk (some "الرد"))).result = Except.ok "الرد" ∧
        Stage.searching ∈
          (processQuestion "وين أقرب صيدلية مفتوحة الآن"
            (default : VoiceState).currentLanguage SearchOutcome.invokeError
            (LlmOutcome.httpOk (some "الرد"))).progress ∧
        Ev.publishAssistant "الرد" ∈
          (processUserMessage default "وين أقرب صيدلية مفتوحة الآن"
            ⟨SearchOutcome.invokeError, LlmOutcome.httpOk (some "الرد"),
              ElevenOutcome.played, BrowserOutcome.ended⟩).events) :=
  ⟨by decide,
    c8_search_failure_swallowed default "وين أقرب صيدلية مفتوحة الآن"
      ⟨SearchOutcome.invokeError, LlmOutcome.httpOk (some "الرد"),
        ElevenOutcome.played, BrowserOutcome.ended⟩
      "الرد" (by decide) rfl rfl⟩

/-- Helper: the full committed-turn trace for an arbitrary pipeline
outcome: the user publish, the pipeline begin, the pipeline progress
events, and — only when generation succeeds — the assistant publish
followed by the speak begin. -/
theorem recognitionOnResult_events (st : VoiceState) (transcript : String)
    (env : TurnEnv) (hbeq : ((jsTrim transcript) == "") = false) :
    (recognitionOnResult st transcript true env).events =
      Ev.publishUser (jsTrim transcript) ::
        Ev.pipelineBegin (jsTrim transcript) ::
        ((Stage.analyzing ::
            ((if shouldUsePerplexity (jsTrim transcript) st.currentLanguage
                then [Stage.searching] else []) ++
              [Stage.processing, Stage.generating])).map Ev.progress ++
          match generateAIResponse env.llm with
          | Except.ok r => [Ev.publishAssistant r, Ev.speakBegin r]
          | Except.error _ => []) := by
  cases hllm : generateAIResponse env.llm with
  | ok r =>
    simp [recognitionOnResult, hbeq, processUserMessage, processQuestion, hllm]
  | error msg =>
    simp [recognitionOnResult, hbeq, processUserMessage, processQuestion, hllm]

/-- Helper: the post-pipeline tail of the turn trace never holds a user
publish, whichever way generation went. -/
theorem tail_no_user (env : TurnEnv) :
    ∀ e ∈ (match generateAIResponse env.llm with
        | Except.ok r => [Ev.publishAssistant r, Ev.speakBegin r]
        | Except.error _ => ([] : List Ev)), isPublishUser e = false := by
  cases generateAIResponse env.llm with
  | ok r => simp [isPublishUser]
  | error msg => simp

/-- Helper: the post-pipeline tail of the turn trace holds no
stage-progress event, whichever way generation went. -/
theorem tail_stagesOf (env : TurnEnv) :
    stagesOf (match generateAIResponse env.llm with
        | Except.ok r => [Ev.publishAssistant r, Ev.speakBegin r]
        | Except.error _ => ([] : List Ev)) = [] := by
  cases generateAIResponse env.llm with
  | ok r => simp [stagesOf]
  | error msg => simp [stagesOf]

/-- Helper: the stage events of a pure progress block are exactly its
stages in order. -/
theorem stagesOf_map_progress (l : List Stage) :
    stagesOf (l.map Ev.progress) = l := by
  induction l with
  | nil => rfl
  | cons s l ih =>
    show s :: stagesOf (l.map Ev.progress) = s :: l
    rw [ih]

/-- Helper: stage extraction distributes over trace concatenation. -/
theorem stagesOf_append (l1 l2 : List Ev) :
    stagesOf (l1 ++ l2) = stagesOf l1 ++ stagesOf l2 := by
  simp [stagesOf, List.filterMap_append]

/-- Helper: the stage events of a committed-turn trace are exactly the
pipeline's progress stages whenever the tail holds none. -/
theorem stagesOf_turn (t : String) (l : List Stage) (tail : List Ev)
    (htail : stagesOf tail = []) :
    stagesOf (Ev.publishUser t :: Ev.pipelineBegin t ::
      (l.map Ev.progress ++ tail)) = l := by
  have h1 : stagesOf (Ev.publishUser t :: Ev.pipelineBegin t ::
      (l.map Ev.progress ++ tail)) = stagesOf (l.map Ev.progress ++ tail) := rfl
  rw [h1, stagesOf_append, stagesOf_map_progress, htail, List.append_nil]

/-- Helper: in a trace opening with the user publish and then the
pipeline begin, every user publish precedes every pipeline begin,
provided the rest republishes no user turn. -/
theorem sep_user_pipeline (t : String) (rest : List Ev)
    (hrest : ∀ e ∈ rest, isPublishUser e = false) :
    EventsSeparated isPublishUser isPipelineBegin
      (Ev.publishUser t :: Ev.pipelineBegin t :: rest) :=
  ⟨[Ev.publishUser t], Ev.pipelineBegin t :: rest, rfl,
    ⟨Ev.publishUser t, by simp, rfl⟩,
    ⟨Ev.pipelineBegin t, by simp, rfl⟩,
    by simp [isPipelineBegin],
    by
      intro e he
      rcases List.mem_cons.mp he with rfl | he'
      · rfl
      · exact hrest e he'⟩

/-- Helper: in a successful-turn trace the assistant publish strictly
precedes the speak begin. -/
theorem sep_assistant_speak (t : String) (l : List Stage) (r : String) :
    EventsSeparated isPublishAssistant isSpeakBegin
      (Ev.publishUser t :: Ev.pipelineBegin t ::
        (l.map Ev.progress ++ [Ev.publishAssistant r, Ev.speakBegin r])) :=
  ⟨Ev.publishUser t :: Ev.pipelineBegin t ::
      (l.map Ev.progress ++ [Ev.publishAssistant r]),
    [Ev.speakBegin r],
    by simp,
    ⟨Ev.publishAssistant r, by simp, rfl⟩,
    ⟨Ev.speakBegin r, by simp, rfl⟩,
    by
      intro e he
      rcases List.mem_cons.mp he with rfl | he'
      · rfl
      rcases List.mem_cons.mp he' with rfl | he''
      · rfl
      rcases List.mem_append.mp he'' with hm | hm
      · obtain ⟨s, _, rfl⟩ := List.mem_map.mp hm
        rfl
      · have hme := List.mem_singleton.mp hm
        subst hme
        rfl,
    by
      intro e he
      have hme := List.mem_singleton.mp he
      subst hme
      rfl⟩

/-- C1: for every committed turn (final non-empty transcript), the user
turn is published strictly before the pipeline call begins and the
stage-progress events are emitted exactly in the order analyzing,
(searching), processing, generating — whether or not the pipeline
succeeds; and on pipeline success the assistant turn is published
strictly before speech playback begins. -/
theorem c1_turn_event_order (st : VoiceState) (transcript : String)
    (env : TurnEnv) (hfin : (jsTrim transcript) ≠ "") :
    EventsSeparated isPublishUser isPipelineBegin
        (recognitionOnResult st transcript true env).events ∧
      stagesOf (recognitionOnResult st transcript true env).events =
        Stage.analyzing ::
          ((if shouldUsePerplexity (jsTrim transcript) st.currentLanguage
              then [Stage.searching] else []) ++
            [Stage.processing, Stage.generating]) ∧
      (∀ r, generateAIResponse env.llm = Except.ok r →
        EventsSeparated isPublishAssistant isSpeakBegin
          (recognitionOnResult st transcript true env).events) := by
  have hbeq : ((jsTrim transcript) == "") = false := beq_eq_false_iff_ne.mpr hfin
  have hev := recognitionOnResult_events st transcript env hbeq
  rw [hev]
  refine ⟨?_, ?_, ?_⟩
  · apply sep_user_pipeline
    intro e he
    rcases List.mem_append.mp he with hm | hm
    · obtain ⟨s, _, rfl⟩ := List.mem_map.mp hm
      rfl
    · exact tail_no_user env e hm
  · exact stagesOf_turn _ _ _ (tail_stagesOf env)
  · intro r hok
    rw [hok]
    exact sep_assistant_speak _ _ r

/-- Witness for C1: a concrete committed English turn, with the
success-only clause additionally discharged at its successful
generation. -/
theorem c1_witness :
    (jsTrim " hello doctor ") ≠ "" ∧
      (EventsSeparated isPublishUser isPipelineBegin
          (recognitionOnResult default " hello doctor " true
            ⟨SearchOutcome.threw, LlmOutcome.httpOk (some "hi"),
              ElevenOutcome.played, BrowserOutcome.ended⟩).events ∧
        stagesOf (recognitionOnResult default " hello doctor " true
            ⟨SearchOutcome.threw, LlmOutcome.httpOk (some "hi"),
              ElevenOutcome.played, BrowserOutcome.ended⟩).events =
          Stage.analyzing ::
            ((if shouldUsePerplexity (jsTrim " hello doctor ")
                (default : VoiceState).currentLanguage
                then [Stage.searching] else []) ++
              [Stage.processing, Stage.generating]) ∧
        (∀ r, generateAIResponse (LlmOutcome.httpOk (some "hi")) =
            Except.ok r →
          EventsSeparated isPublishAssistant isSpeakBegin
            (recognitionOnResult default " hello doctor " true
              ⟨SearchOutcome.threw, LlmOutcome.httpOk (some "hi"),
                ElevenOutcome.played, BrowserOutcome.ended⟩).events)) ∧
      EventsSeparated isPublishAssistant isSpeakBegin
        (recognitionOnResult default " hello doctor " true
          ⟨SearchOutcome.threw, LlmOutcome.httpOk (some "hi"),
            ElevenOutcome.played, BrowserOutcome.ended⟩).events :=
  ⟨by decide,
    c1_turn_event_order default " hello doctor "
      ⟨SearchOutcome.threw, LlmOutcome.httpOk (some "hi"),
        ElevenOutcome.played, BrowserOutcome.ended⟩ (by decide),
    (c1_turn_event_order default " hello doctor "
      ⟨SearchOutcome.threw, LlmOutcome.httpOk (some "hi"),
        ElevenOutcome.played, BrowserOutcome.ended⟩ (by decide)).2.2
      "hi" rfl⟩

/-- Counterexample to C4 as stated: a genuine tier-2 synthesis error
REJECTS the speak promise instead of resolving it, and at the
controller that playback failure is surfaced as the fatal turn error
(`lastError` is set by the same catch handler as a pipeline failure)
even though the assistant turn had already been published. -/
theorem c4_counterexample :
    speakWithBrowserTTS (BrowserOutcome.errored "synthesis-failed") =
        Except.error "Browser TTS failed: synthesis-failed" ∧
      (speakTextEnhanced default ElevenOutcome.noKey
          (BrowserOutcome.errored "synthesis-failed")).2 ≠ Except.ok () ∧
      Ev.publishAssistant "hi" ∈
        (processUserMessage default "hello"
          ⟨SearchOutcome.threw, LlmOutcome.httpOk (some "hi"),
            ElevenOutcome.noKey,
            BrowserOutcome.errored "synthesis-failed"⟩).events ∧
      (processUserMessage default "hello"
          ⟨SearchOutcome.threw, LlmOutcome.httpOk (some "hi"),
            ElevenOutcome.noKey,
            BrowserOutcome.errored "synthesis-failed"⟩).final.error =
        some processFailMsg := by
  refine ⟨rfl, ?_, by decide, ?_⟩
  · intro hcontra
    simp [speakTextEnhanced, speakWithElevenLabs,
      speakWithBrowserTTS] at hcontra
  · decide

/-- C4 (amended): `speak()` resolves when playback ends or is
interrupted before synthesis starts, and every tier-1 failure resolves
`false` rather than rejecting; but a genuine tier-2 synthesis error
makes `speak()` reject, and at the controller that playback rejection is
caught by the same handler as a pipeline failure — setting `lastError`
and clearing `processing` — after the assistant turn has already been
published. -/
theorem c4_speak_resolution (st : VoiceState) (el : ElevenOutcome)
    (br : BrowserOutcome) (e : String) :
    ((speakTextEnhanced st el BrowserOutcome.ended).2 = Except.ok ()) ∧
    ((speakTextEnhanced st el BrowserOutcome.interruptedBeforeSpeak).2 =
      Except.ok ()) ∧
    (speakWithElevenLabs el = true →
      (speakTextEnhanced st el br).2 = Except.ok ()) ∧
    (speakWithElevenLabs el = false →
      (speakTextEnhanced st el (BrowserOutcome.errored e)).2 =
        Except.error ("Browser TTS failed: " ++ e)) ∧
    ((speakTextEnhanced st el br).1.isSpeaking = false) ∧
    (∀ (text : String) (env : TurnEnv) (r : String),
      generateAIResponse env.llm = Except.ok r →
      speakWithElevenLabs env.eleven = false →
      env.browser = BrowserOutcome.errored e →
      Ev.publishAssistant r ∈ (processUserMessage st text env).events ∧
      (processUserMessage st text env).final.error = some processFailMsg ∧
      (processUserMessage st text env).final.isProcessing = false) := by
  refine ⟨by cases el <;> rfl, by cases el <;> rfl, ?_, ?_, ?_, ?_⟩
  · intro h
    simp [speakTextEnhanced, h]
  · intro h
    simp [speakTextEnhanced, h, speakWithBrowserTTS]
  · cases el <;> cases br <;> rfl
  · intro text env r hok hel hbr
    refine ⟨?_, ?_, ?_⟩
    · simp [processUserMessage, processQuestion, hok]
    · simp [processUserMessage, processQuestion, hok, speakTextEnhanced,
        hel, hbr, speakWithBrowserTTS]
    · simp [processUserMessage, processQuestion, hok, speakTextEnhanced,
        hel, hbr, speakWithBrowserTTS]

/-- Witness for C4 (amended) at concrete playback outcomes. -/
theorem c4_witness :
    ((speakTextEnhanced default ElevenOutcome.played
        BrowserOutcome.ended).2 = Except.ok ()) ∧
      ((speakTextEnhanced default ElevenOutcome.noKey
          (BrowserOutcome.errored "boom")).2 =
        Except.error ("Browser TTS failed: " ++ "boom")) ∧
      (Ev.publishAssistant "ok" ∈
        (processUserMessage default "hi"
          ⟨SearchOutcome.threw, LlmOutcome.httpOk (some "ok"),
            ElevenOutcome.noKey, BrowserOutcome.errored "boom"⟩).events ∧
      (processUserMessage default "hi"
          ⟨SearchOutcome.threw, LlmOutcome.httpOk (some "ok"),
            ElevenOutcome.noKey, BrowserOutcome.errored "boom"⟩).final.error =
        some processFailMsg ∧
      (processUserMessage default "hi"
          ⟨SearchOutcome.threw, LlmOutcome.httpOk (some "ok"),
            ElevenOutcome.noKey,
            BrowserOutcome.errored "boom"⟩).final.isProcessing = false) :=
  ⟨(c4_speak_resolution default ElevenOutcome.played
      BrowserOutcome.ended "boom").2.2.1 rfl,
    (c4_speak_resolution default ElevenOutcome.noKey
      BrowserOutcome.ended "boom").2.2.2.1 rfl,
    (c4_speak_resolution default ElevenOutcome.noKey
      BrowserOutcome.ended "boom").2.2.2.2.2 "hi"
      ⟨SearchOutcome.threw, LlmOutcome.httpOk (some "ok"),
        ElevenOutcome.noKey, BrowserOutcome.errored "boom"⟩
      "ok" rfl rfl rfl⟩

/-- Helper: the element appended at the end of a list is read back at
index `length`. -/
theorem get?_append_len {α : Type} (l : List α) (v : α) :
    (l ++ [v]).get? l.length = some v := by
  induction l with
  | nil => rfl
  | cons a l ih => exact ih

/-- Helper: appending does not change reads strictly inside the first
part. -/
theorem get?_append_lt {α : Type} (l l' : List α) (n : Nat)
    (hn : n < l.length) : (l ++ l').get? n = l.get? n := by
  induction l generalizing n with
  | nil => cases hn
  | cons a l ih =>
    cases n with
    | zero => rfl
    | succ n => simpa using ih n (Nat.lt_of_succ_lt_succ hn)

/-- Helper: setting one cell leaves reads of a different cell
unchanged. -/
theorem get?_set_ne {α : Type} (l : List α) (i j : Nat) (v : α)
    (hij : i ≠ j) : (l.set i v).get? j = l.get? j := by
  induction l generalizing i j with
  | nil => simp
  | cons a l ih =>
    cases i with
    | zero =>
      cases j with
      | zero => exact absurd rfl hij
      | succ j => rfl
    | succ i =>
      cases j with
      | zero => rfl
      | succ j =>
        simpa using ih i j (fun hh => hij (by rw [hh]))

/-- Helper: setting a valid cell makes its read return the new value. -/
theorem get?_set_self {α : Type} (l : List α) (i : Nat) (v : α)
    (hi : i < l.length) : (l.set i v).get? i = some v := by
  induction l generalizing i with
  | nil => cases hi
  | cons a l ih =>
    cases i with
    | zero => rfl
    | succ i => simpa using ih i (Nat.lt_of_succ_lt_succ hi)

/-- C10: `getState` returns a defensive snapshot — a freshly allocated
record holding the current state value; mutating that record changes
neither the controller's own cell, nor the value a later `getState`
copies out, nor what state-change subscribers are notified with; and
the controller cell changes only through `updateState`, which writes
exactly that cell and notifies every registered listener with the full
new state. -/
theorem c10_get_state_snapshot (h : Store) (svcRef : Nat)
    (hv : svcRef < h.cells.length) :
    ((getState h svcRef).2 ≠ svcRef) ∧
    (readRef (getState h svcRef).1 (getState h svcRef).2 =
      readRef h svcRef) ∧
    (∀ v', readRef (writeRef (getState h svcRef).1 (getState h svcRef).2 v')
        svcRef = readRef h svcRef) ∧
    (∀ v', readRef
        (getState (writeRef (getState h svcRef).1 (getState h svcRef).2 v')
          svcRef).1
        (getState (writeRef (getState h svcRef).1 (getState h svcRef).2 v')
          svcRef).2 = readRef h svcRef) ∧
    (∀ v' u listeners,
      (updateState (writeRef (getState h svcRef).1 (getState h svcRef).2 v')
          svcRef u listeners).2 =
        listeners.map fun l =>
          (l, applyUpdates ((readRef h svcRef).getD default) u)) ∧
    (∀ u listeners ref, ref ≠ svcRef →
      readRef (updateState h svcRef u listeners).1 ref = readRef h ref) ∧
    (∀ u listeners,
      readRef (updateState h svcRef u listeners).1 svcRef =
        some (applyUpdates ((readRef h svcRef).getD default) u) ∧
      (updateState h svcRef u listeners).2 =
        listeners.map fun l =>
          (l, applyUpdates ((readRef h svcRef).getD default) u)) := by
  have hne : h.cells.length ≠ svcRef := Nat.ne_of_gt hv
  have hval : readRef h svcRef = some (h.cells.get ⟨svcRef, hv⟩) :=
    List.get?_eq_get hv
  have hframe : ∀ v', readRef
      (writeRef (getState h svcRef).1 (getState h svcRef).2 v') svcRef =
      readRef h svcRef := by
    intro v'
    show ((h.cells ++ [(readRef h svcRef).getD default]).set
        h.cells.length v').get? svcRef = _
    rw [get?_set_ne _ _ _ _ hne]
    exact get?_append_lt _ _ _ hv
  refine ⟨?_, ?_, hframe, ?_, ?_, ?_, ?_⟩
  · exact hne
  · show (h.cells ++ [(readRef h svcRef).getD default]).get? h.cells.length =
      readRef h svcRef
    rw [get?_append_len, hval]
    rfl
  · intro v'
    show ((writeRef (getState h svcRef).1 (getState h svcRef).2 v').cells ++
        [(readRef (writeRef (getState h svcRef).1 (getState h svcRef).2 v')
            svcRef).getD default]).get?
        (writeRef (getState h svcRef).1 (getState h svcRef).2 v').cells.length
        = readRef h svcRef
    rw [get?_append_len, hframe v', hval]
    rfl
  · intro v' u listeners
    show listeners.map (fun l =>
        (l, applyUpdates ((readRef
            (writeRef (getState h svcRef).1 (getState h svcRef).2 v')
            svcRef).getD default) u)) = _
    rw [hframe v']
  · intro u listeners ref href
    exact get?_set_ne _ _ _ _ (fun hh => href hh.symm)
  · intro u listeners
    exact ⟨get?_set_self _ _ _ hv, rfl⟩

/-- Witness for C10 on a singleton store holding the initial state. -/
theorem c10_witness :
    ((getState ⟨[default]⟩ 0).2 ≠ 0) ∧
      readRef (getState ⟨[default]⟩ 0).1 (getState ⟨[default]⟩ 0).2 =
        readRef ⟨[default]⟩ 0 ∧
      readRef
          (writeRef (getState ⟨[default]⟩ 0).1 (getState ⟨[default]⟩ 0).2
            { (default : VoiceState) with isConnected := true })
          0 = readRef ⟨[default]⟩ 0 :=
  ⟨(c10_get_state_snapshot ⟨[default]⟩ 0 (by decide)).1,
    (c10_get_state_snapshot ⟨[default]⟩ 0 (by decide)).2.1,
    (c10_get_state_snapshot ⟨[default]⟩ 0 (by decide)).2.2.1
      { (default : VoiceState) with isConnected := true }⟩

end VoiceFlow
